import Mathlib

/-!
Verification development for the `pcos-care-mcp` repository.

The React frontend (AuthContext, Symptoms page, Cycles page, Analytics page)
is embedded directly from its source.  The analytics engine itself
(phase classifier, correlation analyzer, trend analyzer, pattern miner,
cycle forecaster, facade) lives in backend Python modules that are not part
of the available sources; those components are modelled from the
specification document, as marked on each definition.
-/

namespace PCOS

/-! ## Authentication context (embedded from the AuthContext source file) -/

/-- A logged-in user, abstractly: the auth code only stores it whole. -/
structure User where
  name : String
deriving DecidableEq

/-- The mutable state held by `AuthProvider`:
`user` and `token` React state values, the `localStorage` entry under the
key `token`, and the axios default `Authorization` header set through
`setAuthToken`. -/
structure AuthState where
  user : Option User
  token : Option String
  storedToken : Option String
  apiAuth : Option String
deriving DecidableEq

/-- Result value returned by `login`: `{ success: true }` or
`{ success: false, error: detail }`. -/
structure LoginResult where
  success : Bool
  error : Option String
deriving DecidableEq

/-- Outcome of the two backend calls made inside `login`'s `try` block:
either the initial `apiLogin` request throws, or `apiLogin` succeeds with a
token and the subsequent `getCurrentUser` call throws, or both succeed.
The optional `String` is `error.response?.data?.detail`. -/
inductive ApiOutcome where
  | loginThrows (detail : Option String)
  | userFetchThrows (newToken : String) (detail : Option String)
  | bothSucceed (newToken : String) (userData : User)
deriving DecidableEq

/-- The `login` function of the auth context.  On `apiLogin` success it
stores the new token (localStorage, React state, axios header), then loads
the user; any exception is caught and turned into
`{ success: false, error: detail || 'Login failed' }`. -/
def login (s : AuthState) : ApiOutcome → AuthState × LoginResult
  | .loginThrows d => (s, ⟨false, some (d.getD "Login failed")⟩)
  | .userFetchThrows t d =>
      ({ s with token := some t, storedToken := some t, apiAuth := some t },
       ⟨false, some (d.getD "Login failed")⟩)
  | .bothSucceed t u =>
      ({ user := some u, token := some t, storedToken := some t, apiAuth := some t },
       ⟨true, none⟩)

/-- The `logout` function: removes the localStorage entry, clears the
`token` and `user` state values and the axios header. -/
def logout (s : AuthState) : AuthState :=
  { s with user := none, token := none, storedToken := none, apiAuth := none }

/-- The `isAuthenticated` flag exposed in the context value: `!!user`. -/
def isAuthenticated (s : AuthState) : Bool :=
  s.user.isSome

/-! ## Frontend input surfaces (embedded from the Symptoms and Cycles pages) -/

/-- The `SYMPTOM_TYPES` constant of the Symptoms page: the options offered
by the symptom-type `<select>`. -/
def SYMPTOM_TYPES : List String :=
  ["acne", "hirsutism", "hair_loss", "weight_gain", "mood_swings", "fatigue",
   "sleep_issues", "irregular_periods", "pelvic_pain", "headaches", "other"]

/-- Lower bound of the intensity range input (`min="1"`). -/
def intensityInputMin : ℤ := 1

/-- Upper bound of the intensity range input (`max="10"`). -/
def intensityInputMax : ℤ := 10

/-- The options of the flow-intensity `<select>` on the Cycles page:
`light`, `medium`, `heavy` and nothing else. -/
def flowIntensityOptions : List String :=
  ["light", "medium", "heavy"]

/-! ## Input validation at the service boundary -/

/-- Modelled from the spec: the closed 16-element symptom-type enumeration
of the data model; the validating backend module is not among the available
sources. -/
def specSymptomTypes : List String :=
  ["acne", "hirsutism", "hair_loss", "weight_gain", "mood_swings", "fatigue",
   "sleep_issues", "irregular_periods", "pelvic_pain", "headaches", "cramps",
   "bloating", "anxiety", "food_cravings", "breast_tenderness", "other"]

/-- Modelled from the spec: the five-element flow-intensity enumeration of
the `CycleRecord` data model. -/
def specFlowIntensities : List String :=
  ["spotting", "light", "medium", "heavy", "very_heavy"]

/-- The validation failures of the error-handling taxonomy. -/
inductive ValidationError where
  | unknownSymptomType
  | intensityOutOfRange
  | unknownFlowIntensity
  | endBeforeStart
deriving DecidableEq

/-- A raw symptom observation as submitted to the boundary. -/
structure SymptomInput where
  symptomType : String
  intensity : ℤ
deriving DecidableEq

/-- Modelled from the spec: boundary validation of a symptom observation.
An unknown symptom type or an intensity outside 1–10 raises a
`ValidationError` synchronously; an accepted observation is passed through
unchanged (never coerced). -/
def validateSymptom (s : SymptomInput) : Except ValidationError SymptomInput :=
  if s.symptomType ∈ specSymptomTypes then
    if 1 ≤ s.intensity ∧ s.intensity ≤ 10 then .ok s
    else .error .intensityOutOfRange
  else .error .unknownSymptomType

/-- A raw cycle record as submitted to the boundary; dates are proleptic
Gregorian ordinal day numbers. -/
structure CycleInput where
  startDate : ℤ
  endDate : Option ℤ
  flowIntensity : String
deriving DecidableEq

/-- Modelled from the spec: boundary validation of a cycle record.
The flow intensity must belong to the five-element enumeration and
`end_date ≥ start_date` when an end date is present. -/
def validateCycle (c : CycleInput) : Except ValidationError CycleInput :=
  if c.flowIntensity ∈ specFlowIntensities then
    match c.endDate with
    | some e => if c.startDate ≤ e then .ok c else .error .endBeforeStart
    | none => .ok c
  else .error .unknownFlowIntensity

/-! ## Calendar dates

Dates are proleptic Gregorian ordinal day numbers, as produced by
`date.toordinal` in the backend's language; adding a day count to a date is
ordinary integer addition on ordinals. -/

/-- Gregorian leap-year test. -/
def isLeap (y : ℕ) : Bool :=
  y % 4 == 0 && (y % 100 != 0 || y % 400 == 0)

/-- Days elapsed before month `m` (1-indexed) in a year. -/
def daysBeforeMonth (leap : Bool) (m : ℕ) : ℕ :=
  let base :=
    match m with
    | 1 => 0 | 2 => 31 | 3 => 59 | 4 => 90 | 5 => 120 | 6 => 151
    | 7 => 181 | 8 => 212 | 9 => 243 | 10 => 273 | 11 => 304 | _ => 334
  if leap && m ≥ 3 then base + 1 else base

/-- Proleptic Gregorian ordinal of a calendar date (day 1 is 0001-01-01). -/
def toOrdinal (y m d : ℕ) : ℤ :=
  let p : ℤ := (y : ℤ) - 1
  365 * p + p / 4 - p / 100 + p / 400 + (daysBeforeMonth (isLeap y) m : ℤ) + (d : ℤ)

/-! ## Analytics engine data model -/

/-- A stored cycle record as the engine reads it: start date, optional end
date, both as ordinals. -/
structure CycleRec where
  start : ℤ
  endDate : Option ℤ
deriving DecidableEq

/-- A stored symptom observation as the engine reads it; `ts` is the
ordinal day of its timestamp. -/
structure Obs where
  symptomType : String
  intensity : ℤ
  ts : ℤ
deriving DecidableEq

/-- The five cycle-relative phases. -/
inductive CyclePhase where
  | menstrual
  | earlyFollicular
  | ovulatory
  | luteal
  | preMenstrual
deriving DecidableEq

/-- The five phases in their fixed order. -/
def phaseList : List CyclePhase :=
  [.menstrual, .earlyFollicular, .ovulatory, .luteal, .preMenstrual]

/-- Display name of a phase, used for tie-breaking and descriptions. -/
def phaseName : CyclePhase → String
  | .menstrual => "menstrual"
  | .earlyFollicular => "early_follicular"
  | .ovulatory => "ovulatory"
  | .luteal => "luteal"
  | .preMenstrual => "pre_menstrual"

/-- An analyzer's status field. -/
inductive AStatus where
  | ok
  | insufficientData
deriving DecidableEq

/-! ## Phase Classifier (modelled from the spec, §4.1) -/

/-- Fallback cycle length when no following cycle bounds the current one. -/
def assumedLength : ℤ := 28

/-- Modelled from the spec: map a 1-indexed day of a cycle of length `L` to
its phase, using the length-normalized boundaries of §4.1. -/
def phaseOf (d L : ℤ) : CyclePhase :=
  let mEnd := max 3 (round ((18 * L : ℚ) / 100))
  let efEnd := round ((40 * L : ℚ) / 100)
  let ovEnd := round ((55 * L : ℚ) / 100)
  let lutEnd := L - round ((10 * L : ℚ) / 100)
  if d ≤ mEnd then .menstrual
  else if d ≤ efEnd then .earlyFollicular
  else if d ≤ ovEnd then .ovulatory
  else if d ≤ lutEnd then .luteal
  else .preMenstrual

/-- Walk the ascending cycle list looking for the cycle containing `ts`;
returns its index, start and effective length.  The most recent cycle is
bounded by `assumedLength` when no next cycle exists. -/
def locate : List CycleRec → ℤ → ℕ → Option (ℕ × ℤ × ℤ)
  | [], _, _ => none
  | [c], ts, i =>
      if c.start ≤ ts ∧ ts < c.start + assumedLength then some (i, c.start, assumedLength)
      else none
  | c :: c2 :: rest, ts, i =>
      if c.start ≤ ts ∧ ts < c2.start then some (i, c.start, c2.start - c.start)
      else locate (c2 :: rest) ts (i + 1)

/-- Modelled from the spec: `classify(timestamp, cycles)`; `none` is the
`Unknown` result for a timestamp outside all known or assumed cycle spans. -/
def classify (ts : ℤ) (cycles : List CycleRec) : Option CyclePhase :=
  (locate cycles ts 0).map fun r => phaseOf (ts - r.2.1 + 1) r.2.2

/-- Index of the cycle containing `ts`, used for distinct-cycle counts. -/
def cycleIndexOf (ts : ℤ) (cycles : List CycleRec) : Option ℕ :=
  (locate cycles ts 0).map fun r => r.1

/-! ## Correlation Analyzer (modelled from the spec, §4.2) -/

/-- Round a rational to one decimal place. -/
def round1 (x : ℚ) : ℚ :=
  (round (10 * x) : ℤ) / 10

/-- The percentage figure of §4.2:
`occurrences_in_phase / total × 100`, rounded to one decimal. -/
def pct (c n : ℕ) : ℚ :=
  round1 (100 * (c : ℚ) / (n : ℚ))

/-- One row of the correlation result. -/
structure CorrRow where
  symptomType : String
  phase : CyclePhase
  occurrenceCount : ℕ
  percentage : ℚ
deriving DecidableEq

/-- The combined correlation result. -/
structure CorrelationResult where
  status : AStatus
  rows : List CorrRow
deriving DecidableEq

/-- Modelled from the spec: observations within the window (one month is
taken as 30 days), paired with their resolved phases; `Unknown`
observations are excluded. -/
def resolvedInWindow (obs : List Obs) (cycles : List CycleRec)
    (now : ℤ) (windowMonths : ℕ) : List (String × CyclePhase) :=
  (obs.filter fun o => now - 30 * (windowMonths : ℤ) ≤ o.ts).filterMap
    fun o => (classify o.ts cycles).map fun p => (o.symptomType, p)

/-- Occurrences of a symptom type in a given phase among the resolved
windowed observations. -/
def corrCount (rs : List (String × CyclePhase)) (t : String) (p : CyclePhase) : ℕ :=
  (rs.filter fun r => r.1 = t ∧ r.2 = p).length

/-- Total phase-resolved occurrences of a symptom type. -/
def corrTotal (rs : List (String × CyclePhase)) (t : String) : ℕ :=
  (rs.filter fun r => r.1 = t).length

/-- Correlation ordering: descending occurrence count, then ascending phase
name. -/
def corrBefore (a b : CorrRow) : Prop :=
  b.occurrenceCount < a.occurrenceCount ∨
    (a.occurrenceCount = b.occurrenceCount ∧ phaseName a.phase ≤ phaseName b.phase)

instance : DecidableRel corrBefore := fun a b => by
  unfold corrBefore; infer_instance

/-- The correlation rows produced for one symptom type: for every phase
with at least one occurrence, one row carrying the count and the §4.2
percentage. -/
def rowsFor (rs : List (String × CyclePhase)) (t : String) : List CorrRow :=
  (phaseList.filter fun p => 0 < corrCount rs t p).map fun p =>
    ⟨t, p, corrCount rs t p, pct (corrCount rs t p) (corrTotal rs t)⟩

/-- The unsorted correlation rows: for every symptom type in first-seen
order and every phase with at least one occurrence, one row. -/
def corrRowsUnsorted (rs : List (String × CyclePhase)) : List CorrRow :=
  (rs.map Prod.fst).dedup.flatMap (rowsFor rs)

/-- Modelled from the spec: `correlate(observations, cycles, window_months)`
with the implicit "now" made explicit.  Returns `insufficient_data` when
fewer than 2 distinct cycles fall inside the window or no observations
remain after filtering. -/
def correlate (obs : List Obs) (cycles : List CycleRec)
    (now : ℤ) (windowMonths : ℕ) : CorrelationResult :=
  let rs := resolvedInWindow obs cycles now windowMonths
  let cyclesInWindow := cycles.filter fun c => now - 30 * (windowMonths : ℤ) ≤ c.start
  let status : AStatus :=
    if cyclesInWindow.length < 2 ∨
        (obs.filter fun o => now - 30 * (windowMonths : ℤ) ≤ o.ts).isEmpty then
      .insufficientData
    else .ok
  ⟨status, (corrRowsUnsorted rs).insertionSort corrBefore⟩

/-- Sum of the percentage values returned for one symptom type. -/
def sumPctFor (res : CorrelationResult) (t : String) : ℚ :=
  ((res.rows.filter fun r => r.symptomType = t).map fun r => r.percentage).sum

/-! ## Trend Analyzer (modelled from the spec, §4.3) -/

/-- The three trend labels. -/
inductive TrendLabel where
  | increasing
  | decreasing
  | stable
deriving DecidableEq

/-- Per-symptom-type trend result. -/
structure TrendResult where
  avgIntensity : ℚ
  count : ℕ
  trendLabel : TrendLabel
deriving DecidableEq

/-- Observations of one symptom type inside the `window_days` window. -/
def trendMatching (obs : List Obs) (t : String) (now : ℤ) (windowDays : ℕ) : List Obs :=
  obs.filter fun o => o.symptomType = t ∧ now - (windowDays : ℤ) ≤ o.ts ∧ o.ts ≤ now

/-- Index of the consecutive 7-day bucket an observation falls into,
counted from the start of the window. -/
def bucketIndex (now : ℤ) (windowDays : ℕ) (o : Obs) : ℤ :=
  (o.ts - (now - (windowDays : ℤ))) / 7

/-- Indices of the non-empty buckets, in first-seen order. -/
def bucketIndices (obs : List Obs) (t : String) (now : ℤ) (windowDays : ℕ) : List ℤ :=
  ((trendMatching obs t now windowDays).map (bucketIndex now windowDays)).dedup

/-- Mean of a list of rationals (0 on the empty list). -/
def listMean (l : List ℚ) : ℚ :=
  l.sum / (l.length : ℚ)

/-- Mean intensity of the matching observations inside bucket `i`. -/
def bucketMean (obs : List Obs) (t : String) (now : ℤ) (windowDays : ℕ) (i : ℤ) : ℚ :=
  listMean (((trendMatching obs t now windowDays).filter
    fun o => bucketIndex now windowDays o = i).map fun o => (o.intensity : ℚ))

/-- Ordinary-least-squares slope over a list of points. -/
def olsSlope (pts : List (ℚ × ℚ)) : ℚ :=
  let xbar := listMean (pts.map Prod.fst)
  let ybar := listMean (pts.map Prod.snd)
  ((pts.map fun p => (p.1 - xbar) * (p.2 - ybar)).sum) /
    ((pts.map fun p => (p.1 - xbar) ^ 2).sum)

/-- Modelled from the spec: the trend label of one symptom type over
`window_days`, with the implicit "now" made explicit.  At least 2 non-empty
7-day buckets are required to fit a slope; with fewer the label is
`stable`. -/
def trendLabelOf (obs : List Obs) (t : String) (now : ℤ) (windowDays : ℕ) : TrendLabel :=
  let idxs := bucketIndices obs t now windowDays
  if idxs.length < 2 then TrendLabel.stable
  else
    let slope := olsSlope (idxs.map fun i : ℤ => ((i : ℚ), bucketMean obs t now windowDays i))
    if slope > 3 / 20 then .increasing
    else if slope < -(3 / 20) then .decreasing
    else .stable

/-- Modelled from the spec: the full trend record of one symptom type:
`avg_intensity` is the mean over all matching observations and `count`
their raw tally. -/
def trendFor (obs : List Obs) (t : String) (now : ℤ) (windowDays : ℕ) : TrendResult :=
  let ms := trendMatching obs t now windowDays
  ⟨listMean (ms.map fun o => (o.intensity : ℚ)), ms.length, trendLabelOf obs t now windowDays⟩

/-- Modelled from the spec: `trend(observations, null, window_days)` — one
entry per symptom type present among the observations, in first-seen
order. -/
def trendAll (obs : List Obs) (now : ℤ) (windowDays : ℕ) : List (String × TrendResult) :=
  ((obs.map fun o => o.symptomType).dedup).map fun t => (t, trendFor obs t now windowDays)

/-! ## Pattern Miner (modelled from the spec, §4.4) -/

/-- One mined pattern. -/
structure Pattern where
  symptomType : String
  phase : CyclePhase
  occurrences : ℕ
  distinctCycles : ℕ
  description : String
deriving DecidableEq

/-- Observations with a resolvable phase, tagged with symptom type, phase
and the index of their containing cycle. -/
def minable (obs : List Obs) (cycles : List CycleRec) : List (String × CyclePhase × ℕ) :=
  obs.filterMap fun o =>
    match classify o.ts cycles, cycleIndexOf o.ts cycles with
    | some p, some i => some (o.symptomType, p, i)
    | _, _ => none

/-- Pattern ordering: descending occurrences, then ascending symptom type. -/
def patternBefore (a b : Pattern) : Prop :=
  b.occurrences < a.occurrences ∨
    (a.occurrences = b.occurrences ∧ a.symptomType ≤ b.symptomType)

instance : DecidableRel patternBefore := fun a b => by
  unfold patternBefore; infer_instance

/-- Modelled from the spec: `mine(observations, cycles, min_occurrences)` —
group phase-resolvable observations by `(symptom_type, phase)`, keep groups
seen in at least 2 distinct cycles with at least `min_occurrences`
occurrences, describe each, and sort. -/
def mine (obs : List Obs) (cycles : List CycleRec) (minOccurrences : ℕ) : List Pattern :=
  let ms := minable obs cycles
  let keys := (ms.map fun r => (r.1, r.2.1)).dedup
  let unsorted := keys.filterMap fun k =>
    let grp := ms.filter fun r => r.1 = k.1 ∧ r.2.1 = k.2
    let occ := grp.length
    let dc := (grp.map fun r => r.2.2).dedup.length
    if 2 ≤ dc ∧ minOccurrences ≤ occ then
      let t := k.1
      let ph := phaseName k.2
      some ⟨k.1, k.2, occ, dc,
        s!"{t} recurring in the {ph} phase across {dc} cycles"⟩
    else none
  unsorted.insertionSort patternBefore

/-! ## Cycle Forecaster (modelled from the spec, §4.5) -/

/-- The forecast result; `sampleVar` is the square of `stddev_days`
(Bessel-corrected sample variance), kept as a rational so the record stays
computable. -/
structure ForecastResult where
  status : AStatus
  avgLen : Option ℚ
  sampleVar : Option ℚ
  predicted : Option ℤ
deriving DecidableEq

/-- Lengths (`end − start + 1`) of the closed cycles, in order. -/
def closedLengths (cycles : List CycleRec) : List ℤ :=
  cycles.filterMap fun c => c.endDate.map fun e => e - c.start + 1

/-- Bessel-corrected sample variance of a list of integers. -/
def sampleVariance (l : List ℤ) : ℚ :=
  let m := listMean (l.map fun x => (x : ℚ))
  ((l.map fun x => ((x : ℚ) - m) ^ 2).sum) / ((l.length : ℚ) - 1)

/-- Modelled from the spec: `forecast(cycles)` over ascending cycles.
With fewer than 2 closed cycles the status is `insufficient_data` and
`average_length_days`/`stddev_days` are omitted; with at least one cycle
recorded the prediction is seeded from the most recent start date, using a
28-day fallback when no average exists; with zero cycles no prediction is
returned at all. -/
def forecast (cycles : List CycleRec) : ForecastResult :=
  match cycles.getLast? with
  | none => ⟨.insufficientData, none, none, none⟩
  | some last =>
      if 2 ≤ (closedLengths cycles).length then
        ⟨.ok, some (listMean ((closedLengths cycles).map fun x => (x : ℚ))),
         some (sampleVariance (closedLengths cycles)),
         some (last.start + round (listMean ((closedLengths cycles).map fun x => (x : ℚ))))⟩
      else
        ⟨.insufficientData, none, none, some (last.start + assumedLength)⟩

/-- The square root of the sample variance: `stddev_days`. -/
noncomputable def stddevDays (f : ForecastResult) : Option ℝ :=
  f.sampleVar.map fun v => Real.sqrt (v : ℝ)

/-- The regularity score of §4.5,
`clamp(0, 100, 100 − stddev/avg × 100 × 2)`. -/
noncomputable def regularityScore (f : ForecastResult) : Option ℝ :=
  match f.avgLen, f.sampleVar with
  | some a, some v => some (max 0 (min 100 (100 - Real.sqrt (v : ℝ) / (a : ℝ) * 100 * 2)))
  | _, _ => none

/-! ## Analytics Facade (modelled from the spec, §4.6) -/

/-- The combined report, one field per analyzer. -/
structure AnalysisReport where
  correlation : CorrelationResult
  trends : List (String × TrendResult)
  patterns : List Pattern
  forecastResult : ForecastResult
deriving DecidableEq

/-- Modelled from the spec: the facade calls the four analyzers on a shared
snapshot (with the frontend's default windows: 3 months of correlation,
90 days of trends, pattern threshold 2) and assembles one report. -/
def facade (obs : List Obs) (cycles : List CycleRec) (now : ℤ) : AnalysisReport :=
  ⟨correlate obs cycles now 3, trendAll obs now 90, mine obs cycles 2, forecast cycles⟩

/-! ## Concrete inputs used by specific claims -/

/-- Scenario A of the spec's testable properties: three closed cycles
starting 2024-01-01 (28 days), 2024-01-29 (30 days), 2024-02-28 (26 days),
with `end = start + length − 1`. -/
def scenarioA : List CycleRec :=
  [⟨toOrdinal 2024 1 1, some (toOrdinal 2024 1 28)⟩,
   ⟨toOrdinal 2024 1 29, some (toOrdinal 2024 2 27)⟩,
   ⟨toOrdinal 2024 2 28, some (toOrdinal 2024 3 24)⟩]

/-- Two cycles bounding a 28-day span starting at ordinal day 100. -/
def cycC1 : List CycleRec := [⟨100, some 127⟩, ⟨128, none⟩]

/-- 18 `cramps` observations inside the window: one in each of the first
four phases of the first cycle of `cycC1` and 14 in its pre-menstrual
phase. -/
def obsC1 : List Obs :=
  [⟨"cramps", 5, 100⟩, ⟨"cramps", 5, 105⟩, ⟨"cramps", 5, 111⟩, ⟨"cramps", 5, 115⟩,
   ⟨"cramps", 5, 125⟩, ⟨"cramps", 5, 125⟩, ⟨"cramps", 5, 125⟩, ⟨"cramps", 5, 125⟩,
   ⟨"cramps", 5, 125⟩, ⟨"cramps", 5, 125⟩, ⟨"cramps", 5, 125⟩, ⟨"cramps", 5, 125⟩,
   ⟨"cramps", 5, 125⟩, ⟨"cramps", 5, 125⟩, ⟨"cramps", 5, 125⟩, ⟨"cramps", 5, 125⟩,
   ⟨"cramps", 5, 125⟩, ⟨"cramps", 5, 125⟩]

end PCOS

namespace PCOS

/-! ## Theorems for the claims -/

/-- C10: the `AuthProvider` exposes `isAuthenticated` true exactly when the
`user` state value is non-null, and after `logout()` the user is null, the
token is null, the localStorage `token` entry is removed, and
`isAuthenticated` is false. -/
theorem c10_auth_invariant_and_logout :
    ∀ s : AuthState,
      (isAuthenticated s = true ↔ s.user ≠ none) ∧
      (logout s).user = none ∧
      (logout s).token = none ∧
      (logout s).storedToken = none ∧
      (logout s).apiAuth = none ∧
      isAuthenticated (logout s) = false := by
  intro s
  refine ⟨?_, rfl, rfl, rfl, rfl, rfl⟩
  cases h : s.user <;> simp [isAuthenticated, h]

/-- C9 counterexample: a `login` call in which the token request succeeds
but the subsequent `getCurrentUser` request throws returns
`success: false` yet has already overwritten the `token` state value and
the localStorage entry, so the stored authentication state is not left
unchanged by every failed call. -/
theorem c9_login_state_counterexample :
    (login ⟨none, none, none, none⟩ (ApiOutcome.userFetchThrows "tok0" none)).2.success
        = false ∧
    (login ⟨none, none, none, none⟩ (ApiOutcome.userFetchThrows "tok0" none)).1.token
        = some "tok0" ∧
    (AuthState.mk none none none none).token = none := by
  exact ⟨rfl, rfl, rfl⟩

/-- C9 (amended): when the initial `apiLogin` request throws, `login`
returns `{success: false, error: detail || 'Login failed'}` and the stored
state is completely unchanged; when `apiLogin` succeeds and the follow-up
`getCurrentUser` throws, `login` still returns the failure value instead of
propagating, and the `user` state is unchanged, but the `token` state and
the localStorage entry have already been set to the new token. -/
theorem c9_login_failure_behavior :
    ∀ (s : AuthState) (d : Option String) (t : String),
      login s (ApiOutcome.loginThrows d) = (s, ⟨false, some (d.getD "Login failed")⟩) ∧
      (login s (ApiOutcome.userFetchThrows t d)).2
          = ⟨false, some (d.getD "Login failed")⟩ ∧
      (login s (ApiOutcome.userFetchThrows t d)).1.user = s.user ∧
      (login s (ApiOutcome.userFetchThrows t d)).1.token = some t ∧
      (login s (ApiOutcome.userFetchThrows t d)).1.storedToken = some t := by
  intro s d t
  exact ⟨rfl, rfl, rfl, rfl, rfl⟩

/-- C8: every analyzer of the engine, and the facade, is deterministic:
two invocations on the same immutable snapshot (with the implicit "now"
passed explicitly) yield identical outputs.  The embedded analyzers are
pure functions, so the two results are definitionally equal. -/
theorem c8_analyzers_deterministic :
    ∀ (obs : List Obs) (cycles : List CycleRec) (now ts : ℤ)
      (months windowDays minOcc : ℕ) (t : String),
      classify ts cycles = classify ts cycles ∧
      correlate obs cycles now months = correlate obs cycles now months ∧
      trendFor obs t now windowDays = trendFor obs t now windowDays ∧
      mine obs cycles minOcc = mine obs cycles minOcc ∧
      forecast cycles = forecast cycles ∧
      facade obs cycles now = facade obs cycles now := by
  intro obs cycles now ts months windowDays minOcc t
  exact ⟨rfl, rfl, rfl, rfl, rfl, rfl⟩

/-- C4: the symptom-type enumeration is closed with 16 elements, every
option the symptom page offers belongs to it, every accepted observation
carries an enumerated symptom type and an intensity within 1–10 and is
passed through unchanged (never coerced), and any input with an unknown
symptom type or an out-of-range intensity is rejected with a
`ValidationError`. -/
theorem c4_symptom_validation :
    specSymptomTypes.length = 16 ∧
    (∀ t ∈ SYMPTOM_TYPES, t ∈ specSymptomTypes) ∧
    (∀ s r : SymptomInput, validateSymptom s = .ok r →
      r = s ∧ r.symptomType ∈ specSymptomTypes ∧ 1 ≤ r.intensity ∧ r.intensity ≤ 10) ∧
    (∀ s : SymptomInput,
      s.symptomType ∉ specSymptomTypes ∨ s.intensity < 1 ∨ 10 < s.intensity →
      ∃ e, validateSymptom s = .error e) := by
  refine ⟨by decide, by decide, ?_, ?_⟩
  · intro s r h
    unfold validateSymptom at h
    split_ifs at h with h1 h2
    simp only [Except.ok.injEq] at h
    exact ⟨h.symm, h ▸ h1, h ▸ h2.1, h ▸ h2.2⟩
  · intro s hbad
    unfold validateSymptom
    by_cases h1 : s.symptomType ∈ specSymptomTypes
    · rw [if_pos h1, if_neg ?_]
      · exact ⟨_, rfl⟩
      · rintro ⟨hlo, hhi⟩
        rcases hbad with h | h | h
        · exact h h1
        · omega
        · omega
    · rw [if_neg h1]
      exact ⟨_, rfl⟩

/-- C4 witness: a concrete accepted observation and a concrete rejected
one. -/
theorem c4_symptom_validation_witness :
    ((⟨"acne", 5⟩ : SymptomInput) = ⟨"acne", 5⟩ ∧
      (⟨"acne", (5 : ℤ)⟩ : SymptomInput).symptomType ∈ specSymptomTypes ∧
      1 ≤ (⟨"acne", (5 : ℤ)⟩ : SymptomInput).intensity ∧
      (⟨"acne", (5 : ℤ)⟩ : SymptomInput).intensity ≤ 10) ∧
    ("acne" ∈ specSymptomTypes) ∧
    (∃ e, validateSymptom ⟨"cramps", 11⟩ = .error e) := by
  refine ⟨c4_symptom_validation.2.2.1 ⟨"acne", 5⟩ ⟨"acne", 5⟩ (by rfl),
    c4_symptom_validation.2.1 "acne" (by decide),
    c4_symptom_validation.2.2.2 ⟨"cramps", 11⟩ (Or.inr (Or.inr (by decide)))⟩

/-- C5 counterexample: `spotting` belongs to the five-element flow
enumeration but is not among the options of the cycle-creation interface's
flow-intensity select, so not every enumerated value can be produced
through it. -/
theorem c5_flow_interface_counterexample :
    "spotting" ∈ specFlowIntensities ∧ "spotting" ∉ flowIntensityOptions := by
  decide

/-- C5 (amended): every accepted cycle record carries a flow intensity
from the five-element enumeration, unchanged; the cycle-creation
interface's select offers exactly `light`, `medium`, `heavy`, each of which
belongs to the enumeration — but `spotting` and `very_heavy` cannot be
produced through it. -/
theorem c5_flow_enumeration :
    (∀ c r : CycleInput, validateCycle c = .ok r →
      r = c ∧ r.flowIntensity ∈ specFlowIntensities) ∧
    flowIntensityOptions = ["light", "medium", "heavy"] ∧
    (∀ o ∈ flowIntensityOptions, o ∈ specFlowIntensities) ∧
    "spotting" ∉ flowIntensityOptions ∧ "very_heavy" ∉ flowIntensityOptions := by
  refine ⟨?_, rfl, by decide, by decide, by decide⟩
  intro c r h
  unfold validateCycle at h
  split_ifs at h with h1
  · split at h
    · split_ifs at h
      simp only [Except.ok.injEq] at h
      exact ⟨h.symm, h ▸ h1⟩
    · simp only [Except.ok.injEq] at h
      exact ⟨h.symm, h ▸ h1⟩

/-- C5 witness: a concrete accepted cycle with flow `light`, and the
membership of `light` in the enumeration. -/
theorem c5_flow_enumeration_witness :
    ((⟨0, none, "light"⟩ : CycleInput) = ⟨0, none, "light"⟩ ∧
      (⟨0, none, "light"⟩ : CycleInput).flowIntensity ∈ specFlowIntensities) ∧
    "light" ∈ specFlowIntensities := by
  exact ⟨c5_flow_enumeration.1 ⟨0, none, "light"⟩ ⟨0, none, "light"⟩ (by rfl),
    c5_flow_enumeration.2.2.1 "light" (by decide)⟩

/-- C3: with zero cycles the forecaster returns `insufficient_data` with no
prediction and no statistics, and whenever fewer than 2 closed cycles exist
the status is `insufficient_data` with `average_length_days` and the
variance (hence the stddev-based regularity score) omitted; it is a total
function, so no error is raised. -/
theorem c3_forecast_insufficient :
    forecast [] = ⟨.insufficientData, none, none, none⟩ ∧
    ∀ cycles : List CycleRec, (closedLengths cycles).length < 2 →
      (forecast cycles).status = .insufficientData ∧
      (forecast cycles).avgLen = none ∧
      (forecast cycles).sampleVar = none := by
  refine ⟨rfl, ?_⟩
  intro cycles h
  have key : forecast cycles
      = ⟨.insufficientData, none, none,
          cycles.getLast?.map fun last => last.start + assumedLength⟩ := by
    unfold forecast
    cases hl : cycles.getLast? with
    | none => rfl
    | some c =>
        have hc : ¬ 2 ≤ (closedLengths cycles).length := by omega
        simp [hc]
  rw [key]
  exact ⟨rfl, rfl, rfl⟩

/-- C3 witness: a single closed cycle has fewer than 2 closed cycles and
receives the insufficient-data treatment. -/
theorem c3_forecast_insufficient_witness :
    (closedLengths [(⟨0, some 27⟩ : CycleRec)]).length < 2 ∧
    (forecast [(⟨0, some 27⟩ : CycleRec)]).status = .insufficientData ∧
    (forecast [(⟨0, some 27⟩ : CycleRec)]).avgLen = none ∧
    (forecast [(⟨0, some 27⟩ : CycleRec)]).sampleVar = none := by
  exact ⟨by decide, c3_forecast_insufficient.2 [⟨0, some 27⟩] (by decide)⟩

/-- C6: the facade is a total function assembling one combined report in
which each analyzer's field is exactly that analyzer's own result on the
shared snapshot — so one analyzer's insufficiency never changes another's
field — and on the empty snapshot it still returns a report, with absence
of data reported as `insufficient_data` statuses rather than an error. -/
theorem c6_facade_report :
    ∀ (obs : List Obs) (cycles : List CycleRec) (now : ℤ),
      (facade obs cycles now).correlation = correlate obs cycles now 3 ∧
      (facade obs cycles now).trends = trendAll obs now 90 ∧
      (facade obs cycles now).patterns = mine obs cycles 2 ∧
      (facade obs cycles now).forecastResult = forecast cycles ∧
      (facade [] [] now).correlation.status = .insufficientData ∧
      (facade [] [] now).trends = [] ∧
      (facade [] [] now).patterns = [] ∧
      (facade [] [] now).forecastResult.status = .insufficientData := by
  intro obs cycles now
  exact ⟨rfl, rfl, rfl, rfl, rfl, rfl, rfl, rfl⟩

/-- C7: the trend analyzer's `count` is always the raw tally of matching
observations; with fewer than 2 non-empty 7-day buckets the label is
`stable`; in particular a symptom type with exactly one observation in the
window gets `trend_label = stable` and `count = 1`. -/
theorem c7_trend_stable_few_buckets :
    ∀ (obs : List Obs) (t : String) (now : ℤ) (windowDays : ℕ),
      (trendFor obs t now windowDays).count
          = (trendMatching obs t now windowDays).length ∧
      ((bucketIndices obs t now windowDays).length < 2 →
        (trendFor obs t now windowDays).trendLabel = .stable) ∧
      ((trendMatching obs t now windowDays).length = 1 →
        (trendFor obs t now windowDays).trendLabel = .stable ∧
        (trendFor obs t now windowDays).count = 1) := by
  intro obs t now wd
  have hcount : (trendFor obs t now wd).count = (trendMatching obs t now wd).length := rfl
  have hlabel : (trendFor obs t now wd).trendLabel = trendLabelOf obs t now wd := rfl
  have hfew : (bucketIndices obs t now wd).length < 2 →
      trendLabelOf obs t now wd = .stable := by
    intro h
    unfold trendLabelOf
    rw [if_pos h]
  refine ⟨hcount, fun h => hlabel.trans (hfew h), ?_⟩
  intro h1
  obtain ⟨o, ho⟩ := List.length_eq_one.mp h1
  have hb : bucketIndices obs t now wd = [bucketIndex now wd o] := by
    unfold bucketIndices
    rw [ho]
    rfl
  refine ⟨hlabel.trans (hfew ?_), hcount.trans h1⟩
  rw [hb]
  norm_num

/-- C7 witness: a concrete single observation yields a stable label and a
count of one. -/
theorem c7_trend_stable_witness :
    (trendFor [(⟨"acne", 5, 95⟩ : Obs)] "acne" 100 90).trendLabel = .stable ∧
    (trendFor [(⟨"acne", 5, 95⟩ : Obs)] "acne" 100 90).count = 1 := by
  exact (c7_trend_stable_few_buckets [⟨"acne", 5, 95⟩] "acne" 100 90).2.2 (by rfl)

/-- On Scenario A's cycles the forecaster computes exactly: status `ok`,
average 28, sample variance 4, and a prediction of the last start plus 28
days. -/
theorem forecast_scenarioA_eq :
    forecast scenarioA
      = ⟨.ok, some 28, some 4, some (toOrdinal 2024 2 28 + 28)⟩ := by
  have hl : closedLengths scenarioA = [28, 30, 26] := by decide
  have havg : listMean ((closedLengths scenarioA).map fun x => (x : ℚ)) = 28 := by
    rw [hl]; norm_num [listMean]
  have hvar : sampleVariance (closedLengths scenarioA) = 4 := by
    rw [hl]; norm_num [sampleVariance, listMean]
  have hlast : scenarioA.getLast?
      = some ⟨toOrdinal 2024 2 28, some (toOrdinal 2024 3 24)⟩ := rfl
  simp only [forecast, hlast]
  rw [if_pos (by rw [hl]; norm_num)]
  rw [havg, hvar]
  norm_num [round_eq]

/-- The square root of four. -/
theorem sqrt_four : Real.sqrt 4 = 2 := by
  rw [show (4 : ℝ) = 2 ^ 2 by norm_num]
  exact Real.sqrt_sq (by norm_num)

/-- C2 counterexample: on Scenario A's cycles the forecaster's prediction
is the most recent start date 2024-02-28 plus `round(28)` days, which is
2024-03-27 — not the claimed 2024-04-23. -/
theorem c2_predicted_start_counterexample :
    closedLengths scenarioA = [28, 30, 26] ∧
    (forecast scenarioA).predicted = some (toOrdinal 2024 3 27) ∧
    (forecast scenarioA).predicted ≠ some (toOrdinal 2024 4 23) := by
  refine ⟨by decide, ?_, ?_⟩
  · rw [forecast_scenarioA_eq]
    decide
  · rw [forecast_scenarioA_eq]
    decide

/-- C2 (amended): on Scenario A the forecaster returns
`average_length_days = 28`, `stddev_days = 2` (sample standard deviation,
n−1 denominator), `regularity_score = 600/7 ≈ 85.7`, and
`predicted_next_start = 2024-02-28 + round(28) days = 2024-03-27`. -/
theorem c2_scenarioA_forecast :
    (forecast scenarioA).status = .ok ∧
    (forecast scenarioA).avgLen = some 28 ∧
    stddevDays (forecast scenarioA) = some 2 ∧
    regularityScore (forecast scenarioA) = some (600 / 7) ∧
    |(600 / 7 : ℝ) - 857 / 10| ≤ 1 / 10 ∧
    (forecast scenarioA).predicted = some (toOrdinal 2024 3 27) := by
  refine ⟨by rw [forecast_scenarioA_eq], by rw [forecast_scenarioA_eq], ?_, ?_, ?_,
    by rw [forecast_scenarioA_eq]; decide⟩
  · simp [stddevDays, forecast_scenarioA_eq, sqrt_four]
  · simp [regularityScore, forecast_scenarioA_eq, sqrt_four]
    norm_num [min_def, max_def]
  · rw [abs_of_nonneg (by norm_num)]
    norm_num

/-! ### Lemmas about the correlation percentages (claim C1) -/

/-- Rounding to one decimal moves a rational by at most `1/20`. -/
theorem round1_err (x : ℚ) : |round1 x - x| ≤ 1 / 20 := by
  unfold round1
  have h : |((round (10 * x) : ℤ) : ℚ) - 10 * x| ≤ 1 / 2 := by
    rw [abs_sub_comm]
    exact abs_sub_round (10 * x)
  have hrw : ((round (10 * x) : ℤ) : ℚ) / 10 - x
      = (((round (10 * x) : ℤ) : ℚ) - 10 * x) / 10 := by ring
  rw [hrw, abs_div, show |(10 : ℚ)| = 10 by norm_num]
  linarith

/-- The §4.2 percentage is within `1/20` of the exact ratio. -/
theorem pct_err (c n : ℕ) : |pct c n - 100 * (c : ℚ) / (n : ℚ)| ≤ 1 / 20 :=
  round1_err _

/-- Filtering the phases with positive count before summing equals summing
a guarded term over all phases. -/
theorem sum_pct_eq (c : CyclePhase → ℕ) (n : ℕ) :
    (((phaseList.filter fun p => 0 < c p).map fun p => pct (c p) n)).sum
      = ((phaseList.map fun p => if 0 < c p then pct (c p) n else 0)).sum := by
  simp only [phaseList]
  by_cases h1 : 0 < c .menstrual <;> by_cases h2 : 0 < c .earlyFollicular <;>
    by_cases h3 : 0 < c .ovulatory <;> by_cases h4 : 0 < c .luteal <;>
    by_cases h5 : 0 < c .preMenstrual <;>
    simp [List.filter_cons, h1, h2, h3, h4, h5]

/-- Prepending one observation changes one per-phase count by one. -/
theorem corrCount_cons (x : String × CyclePhase) (rs : List (String × CyclePhase))
    (t : String) (p : CyclePhase) :
    corrCount (x :: rs) t p
      = corrCount rs t p + if x.1 = t ∧ x.2 = p then 1 else 0 := by
  by_cases h : x.1 = t ∧ x.2 = p
  · simp [corrCount, List.filter_cons, h]
  · simp [corrCount, List.filter_cons, h]

/-- Prepending one observation changes the total count by at most one. -/
theorem corrTotal_cons (x : String × CyclePhase) (rs : List (String × CyclePhase))
    (t : String) :
    corrTotal (x :: rs) t = corrTotal rs t + if x.1 = t then 1 else 0 := by
  by_cases h : x.1 = t
  · simp [corrTotal, List.filter_cons, h]
  · simp [corrTotal, List.filter_cons, h]

/-- The total count of a symptom type splits as the sum of its per-phase
counts. -/
theorem corrTotal_eq_sum (rs : List (String × CyclePhase)) (t : String) :
    ((phaseList.map fun p => corrCount rs t p)).sum = corrTotal rs t := by
  induction rs with
  | nil => rfl
  | cons x rs ih =>
      simp only [phaseList, List.map_cons, List.map_nil, List.sum_cons,
        List.sum_nil] at ih ⊢
      rw [corrCount_cons, corrCount_cons, corrCount_cons, corrCount_cons,
        corrCount_cons, corrTotal_cons]
      obtain ⟨t', p'⟩ := x
      by_cases h : t' = t
      · subst h
        cases p' <;> simp <;> omega
      · simp [h]
        omega

/-- Every row generated for symptom type `a` carries symptom type `a`. -/
theorem mem_rowsFor {rs : List (String × CyclePhase)} {a : String} {r : CorrRow}
    (h : r ∈ rowsFor rs a) : r.symptomType = a := by
  unfold rowsFor at h
  simp only [List.mem_map] at h
  obtain ⟨p, _, rfl⟩ := h
  rfl

/-- Filtering the rows of one symptom type by another keeps all or none. -/
theorem filter_rowsFor (rs : List (String × CyclePhase)) (a t : String) :
    ((rowsFor rs a).filter fun r => r.symptomType = t)
      = if a = t then rowsFor rs a else [] := by
  by_cases h : a = t
  · subst h
    rw [if_pos rfl]
    apply List.filter_eq_self.mpr
    intro r hr
    simp [mem_rowsFor hr]
  · rw [if_neg h]
    apply List.filter_eq_nil_iff.mpr
    intro r hr
    simp [mem_rowsFor hr, h]

/-- Filtering the concatenated per-type rows down to one symptom type
recovers exactly that type's rows. -/
theorem filter_flatMap_rowsFor (rs : List (String × CyclePhase)) (t : String)
    (l : List String) (hnd : l.Nodup) :
    ((l.flatMap (rowsFor rs)).filter fun r => r.symptomType = t)
      = if t ∈ l then rowsFor rs t else [] := by
  induction l with
  | nil => simp
  | cons a l ih =>
      have hnd' := List.nodup_cons.mp hnd
      rw [List.flatMap_cons, List.filter_append, filter_rowsFor, ih hnd'.2]
      by_cases hat : a = t
      · subst hat
        rw [if_pos rfl, if_pos (List.mem_cons_self _ _), if_neg hnd'.1]
        simp
      · rw [if_neg hat]
        by_cases htl : t ∈ l
        · rw [if_pos htl, if_pos (List.mem_cons_of_mem _ htl)]
          simp
        · rw [if_neg htl, if_neg ?_]
          · simp
          · intro hmem
            rcases List.mem_cons.mp hmem with h | h
            exacts [hat h.symm, htl h]

/-- A symptom type with a positive total appears among the deduplicated
types. -/
theorem mem_types_of_total_pos {rs : List (String × CyclePhase)} {t : String}
    (h : 0 < corrTotal rs t) : t ∈ (rs.map Prod.fst).dedup := by
  unfold corrTotal at h
  rw [List.mem_dedup]
  obtain ⟨r, hr⟩ := List.exists_mem_of_length_pos h
  have hm := List.mem_filter.mp hr
  have ht : r.1 = t := by simpa using hm.2
  exact ht ▸ List.mem_map_of_mem Prod.fst hm.1

/-- The sum of the percentages the correlation analyzer returns for one
symptom type equals the sum of the §4.2 percentages over the phases with a
positive count. -/
theorem sumPctFor_correlate (obs : List Obs) (cycles : List CycleRec) (now : ℤ)
    (months : ℕ) (t : String)
    (h : 0 < corrTotal (resolvedInWindow obs cycles now months) t) :
    sumPctFor (correlate obs cycles now months) t
      = ((phaseList.filter fun p =>
            0 < corrCount (resolvedInWindow obs cycles now months) t p).map fun p =>
          pct (corrCount (resolvedInWindow obs cycles now months) t p)
            (corrTotal (resolvedInWindow obs cycles now months) t)).sum := by
  set rs := resolvedInWindow obs cycles now months with hrs
  have hrows : (correlate obs cycles now months).rows
      = (corrRowsUnsorted rs).insertionSort corrBefore := rfl
  unfold sumPctFor
  rw [hrows]
  have hperm : (((corrRowsUnsorted rs).insertionSort corrBefore).filter
        fun r => r.symptomType = t).Perm
      ((corrRowsUnsorted rs).filter fun r => r.symptomType = t) :=
    (List.perm_insertionSort _ _).filter _
  rw [(hperm.map fun r => r.percentage).sum_eq]
  unfold corrRowsUnsorted
  rw [filter_flatMap_rowsFor rs t _ (List.nodup_dedup _)]
  rw [if_pos (mem_types_of_total_pos h)]
  unfold rowsFor
  rw [List.map_map]
  rfl

/-- For any per-phase counts summing to a positive total, the §4.2
percentages over the phases with a positive count sum to 100 within
`1/4` — each of the at most five returned values carries a rounding error
of at most `1/20`. -/
theorem sum_pct_bound (c : CyclePhase → ℕ) (n : ℕ) (hn : 0 < n)
    (hsum : ((phaseList.map fun p => c p)).sum = n) :
    |(((phaseList.filter fun p => 0 < c p).map fun p => pct (c p) n)).sum - 100|
      ≤ 1 / 4 := by
  rw [sum_pct_eq]
  have hn0 : ((n : ℚ)) ≠ 0 := by exact_mod_cast hn.ne'
  have key : ∀ p : CyclePhase,
      |(if 0 < c p then pct (c p) n else 0) - 100 * (c p : ℚ) / (n : ℚ)| ≤ 1 / 20 := by
    intro p
    by_cases h : 0 < c p
    · rw [if_pos h]
      exact pct_err _ _
    · have hz : c p = 0 := by omega
      rw [if_neg h, hz]
      norm_num
  simp only [phaseList, List.map_cons, List.map_nil, List.sum_cons, List.sum_nil,
    add_zero] at hsum ⊢
  set g1 := (if 0 < c .menstrual then pct (c .menstrual) n else 0) with hg1
  set g2 := (if 0 < c .earlyFollicular then pct (c .earlyFollicular) n else 0) with hg2
  set g3 := (if 0 < c .ovulatory then pct (c .ovulatory) n else 0) with hg3
  set g4 := (if 0 < c .luteal then pct (c .luteal) n else 0) with hg4
  set g5 := (if 0 < c .preMenstrual then pct (c .preMenstrual) n else 0) with hg5
  set t1 := 100 * (c .menstrual : ℚ) / (n : ℚ) with ht1
  set t2 := 100 * (c .earlyFollicular : ℚ) / (n : ℚ) with ht2
  set t3 := 100 * (c .ovulatory : ℚ) / (n : ℚ) with ht3
  set t4 := 100 * (c .luteal : ℚ) / (n : ℚ) with ht4
  set t5 := 100 * (c .preMenstrual : ℚ) / (n : ℚ) with ht5
  have k1 := key .menstrual
  have k2 := key .earlyFollicular
  have k3 := key .ovulatory
  have k4 := key .luteal
  have k5 := key .preMenstrual
  have htrue : t1 + t2 + t3 + t4 + t5 = 100 := by
    have hcast : (c .menstrual : ℚ) + (c .earlyFollicular : ℚ) + (c .ovulatory : ℚ)
        + (c .luteal : ℚ) + (c .preMenstrual : ℚ) = (n : ℚ) := by
      have hsum2 : c .menstrual + c .earlyFollicular + c .ovulatory + c .luteal
          + c .preMenstrual = n := by omega
      exact_mod_cast hsum2
    rw [ht1, ht2, ht3, ht4, ht5]
    field_simp
    linarith
  have hX : g1 + (g2 + (g3 + (g4 + g5))) - 100
      = (g1 - t1) + ((g2 - t2) + ((g3 - t3) + ((g4 - t4) + (g5 - t5)))) := by
    rw [← htrue]
    ring
  rw [hX]
  have A1 := abs_add (g1 - t1) ((g2 - t2) + ((g3 - t3) + ((g4 - t4) + (g5 - t5))))
  have A2 := abs_add (g2 - t2) ((g3 - t3) + ((g4 - t4) + (g5 - t5)))
  have A3 := abs_add (g3 - t3) ((g4 - t4) + (g5 - t5))
  have A4 := abs_add (g4 - t4) (g5 - t5)
  linarith

/-! ### Concrete correlation evaluation on `obsC1`/`cycC1` -/

/-- Day 1 of the first cycle is menstrual. -/
theorem classify_day1 : classify 100 cycC1 = some CyclePhase.menstrual := by
  norm_num [classify, cycC1, locate, phaseOf, round_eq, max_def]

/-- Day 6 of the first cycle is early follicular. -/
theorem classify_day6 : classify 105 cycC1 = some CyclePhase.earlyFollicular := by
  norm_num [classify, cycC1, locate, phaseOf, round_eq, max_def]

/-- Day 12 of the first cycle is ovulatory. -/
theorem classify_day12 : classify 111 cycC1 = some CyclePhase.ovulatory := by
  norm_num [classify, cycC1, locate, phaseOf, round_eq, max_def]

/-- Day 16 of the first cycle is luteal. -/
theorem classify_day16 : classify 115 cycC1 = some CyclePhase.luteal := by
  norm_num [classify, cycC1, locate, phaseOf, round_eq, max_def]

/-- Day 26 of the first cycle is pre-menstrual. -/
theorem classify_day26 : classify 125 cycC1 = some CyclePhase.preMenstrual := by
  norm_num [classify, cycC1, locate, phaseOf, round_eq, max_def]

/-- The resolved phase pairs of `obsC1`: counts 1, 1, 1, 1, 14 over the
five phases. -/
def rsC1 : List (String × CyclePhase) :=
  [("cramps", .menstrual), ("cramps", .earlyFollicular), ("cramps", .ovulatory),
   ("cramps", .luteal),
   ("cramps", .preMenstrual), ("cramps", .preMenstrual), ("cramps", .preMenstrual),
   ("cramps", .preMenstrual), ("cramps", .preMenstrual), ("cramps", .preMenstrual),
   ("cramps", .preMenstrual), ("cramps", .preMenstrual), ("cramps", .preMenstrual),
   ("cramps", .preMenstrual), ("cramps", .preMenstrual), ("cramps", .preMenstrual),
   ("cramps", .preMenstrual), ("cramps", .preMenstrual)]

/-- Resolving `obsC1` inside the window yields exactly `rsC1`. -/
theorem resolvedC1_eq : resolvedInWindow obsC1 cycC1 130 3 = rsC1 := by
  unfold resolvedInWindow obsC1 rsC1
  norm_num [classify_day1, classify_day6, classify_day12, classify_day16,
    classify_day26, List.filterMap_cons]

/-- `cramps` has a positive total on the concrete input. -/
theorem corrTotalC1_pos :
    0 < corrTotal (resolvedInWindow obsC1 cycC1 130 3) "cramps" := by
  rw [resolvedC1_eq]
  decide

/-- C1 counterexample: on the concrete input `obsC1`/`cycC1` the
correlation analyzer returns status `ok` and, for `cramps`, the five
percentages 5.6, 5.6, 5.6, 5.6 and 77.8, whose sum 100.2 deviates from 100
by 0.2 — more than the claimed 0.1 tolerance. -/
theorem c1_percentage_sum_counterexample :
    (correlate obsC1 cycC1 130 3).status = AStatus.ok ∧
    ¬(|sumPctFor (correlate obsC1 cycC1 130 3) "cramps" - 100| ≤ 1 / 10) := by
  constructor
  · decide
  · rw [sumPctFor_correlate _ _ _ _ _ corrTotalC1_pos, resolvedC1_eq]
    have hm : corrCount rsC1 "cramps" CyclePhase.menstrual = 1 := by decide
    have hef : corrCount rsC1 "cramps" CyclePhase.earlyFollicular = 1 := by decide
    have hov : corrCount rsC1 "cramps" CyclePhase.ovulatory = 1 := by decide
    have hlut : corrCount rsC1 "cramps" CyclePhase.luteal = 1 := by decide
    have hpre : corrCount rsC1 "cramps" CyclePhase.preMenstrual = 14 := by decide
    have htot : corrTotal rsC1 "cramps" = 18 := by decide
    have hp1 : pct 1 18 = 28 / 5 := by norm_num [pct, round1, round_eq]
    have hp14 : pct 14 18 = 389 / 5 := by norm_num [pct, round1, round_eq]
    norm_num [phaseList, hm, hef, hov, hlut, hpre, htot, List.filter_cons, hp1, hp14]
    rw [abs_of_pos (show (0 : ℚ) < 1 / 5 by norm_num)]
    norm_num

/-- C1 (amended): for every symptom type with at least one phase-resolved
observation in the filtered window, the percentages the correlation
analyzer returns for it sum to 100 within 0.25 — each of the at most five
one-decimal roundings contributes up to 0.05, so the 0.1 tolerance of the
claim is too tight but 0.25 holds. -/
theorem c1_percentage_sum_bound :
    ∀ (obs : List Obs) (cycles : List CycleRec) (now : ℤ) (months : ℕ) (t : String),
      0 < corrTotal (resolvedInWindow obs cycles now months) t →
      |sumPctFor (correlate obs cycles now months) t - 100| ≤ 1 / 4 := by
  intro obs cycles now months t h
  rw [sumPctFor_correlate obs cycles now months t h]
  exact sum_pct_bound _ _ h (corrTotal_eq_sum _ _)

/-- C1 witness: the bound applied to the concrete input `obsC1`/`cycC1`. -/
theorem c1_percentage_sum_bound_witness :
    0 < corrTotal (resolvedInWindow obsC1 cycC1 130 3) "cramps" ∧
    |sumPctFor (correlate obsC1 cycC1 130 3) "cramps" - 100| ≤ 1 / 4 :=
  ⟨corrTotalC1_pos,
    c1_percentage_sum_bound obsC1 cycC1 130 3 "cramps" corrTotalC1_pos⟩

end PCOS
